import Mathlib

/-!
Shallow embedding of the session/powerup core of the `office_games`
repository (TypeScript) and proofs about it.

The embedding follows the source files:
* `src/services/powerupService.ts`  — powerup selection validation,
  allocation, activation checks, use, and board-visibility resolution;
* `src/services/roomService.ts`     — room status updates and answer
  submission;
* `src/games/sudoku`                — the Sudoku plugin (`validateMove`,
  completion percentage);
* `src/games/crossword`             — the Crossword plugin (`validateMove`).

JavaScript numbers are modelled as `Int` (timestamps, counts) or `Nat`
where the source only ever produces non-negative values by construction;
`x ?? fallback` / `x || fallback` option chains become `Option` with
`getD`; Firebase multi-path updates become pure functions from a record
of the touched store paths to the updated record.
-/

namespace OfficeGames

/-- `PowerupType` from `src/types/index.ts`: `'hint' | 'fog' | 'peep'`. -/
inductive PowerupType where
  | hint
  | fog
  | peep
deriving DecidableEq, Repr

/-- `PowerupInventory` from `src/types/index.ts`:
`Record<PowerupType, number>`. -/
structure PowerupInventory where
  hint : Int
  fog : Int
  peep : Int
deriving DecidableEq, Repr

/-- Lookup `inventory[type]`. -/
def PowerupInventory.get (inv : PowerupInventory) : PowerupType → Int
  | PowerupType.hint => inv.hint
  | PowerupType.fog => inv.fog
  | PowerupType.peep => inv.peep

/-- `counts[type]++` on an inventory record. -/
def PowerupInventory.incr (inv : PowerupInventory) : PowerupType → PowerupInventory
  | PowerupType.hint => { inv with hint := inv.hint + 1 }
  | PowerupType.fog => { inv with fog := inv.fog + 1 }
  | PowerupType.peep => { inv with peep := inv.peep + 1 }

/-- `createEmptyInventory` from `src/services/powerupService.ts`. -/
def createEmptyInventory : PowerupInventory :=
  { hint := 0, fog := 0, peep := 0 }

/-- Result record of `validatePowerupSelection`:
`{ valid: boolean; error?: string }`. -/
structure ValidationResult where
  valid : Bool
  error : Option String
deriving DecidableEq, Repr

/-- The per-type counting loop of `validatePowerupSelection`: walk the
selection, incrementing `counts[type]`, and fail as soon as a count
exceeds `maxPerType`. -/
def checkPerTypeLoop (maxPerType : Int) :
    List PowerupType → PowerupInventory → ValidationResult
  | [], _ => { valid := true, error := none }
  | t :: rest, counts =>
      let counts := counts.incr t
      if counts.get t > maxPerType then
        { valid := false, error := some "Too many powerups of one type" }
      else
        checkPerTypeLoop maxPerType rest counts

/-- `validatePowerupSelection` from `src/services/powerupService.ts`:
reject when the selection is longer than `maxTotal`, then reject when any
single type occurs more than `maxPerType` times. -/
def validatePowerupSelection (selection : List PowerupType)
    (maxTotal maxPerType : Int) : ValidationResult :=
  if (selection.length : Int) > maxTotal then
    { valid := false, error := some "Total powerups exceeds maximum" }
  else
    checkPerTypeLoop maxPerType selection createEmptyInventory

/-- `arrayToInventory` from `src/services/powerupService.ts`. -/
def arrayToInventory (powerups : List PowerupType) : PowerupInventory :=
  powerups.foldl (fun inv t => inv.incr t) createEmptyInventory

/-- `hintCell` payload on an active powerup
(`{ row: number; col: number; value: number }`). -/
structure HintCell where
  row : Int
  col : Int
  value : Int
deriving DecidableEq, Repr

/-- `ActivePowerup` from `src/types/index.ts`. -/
structure ActivePowerup where
  type : PowerupType
  startedAt : Int
  durationMs : Int
  hintCell : Option HintCell := none
deriving DecidableEq, Repr

/-- `PlayerPowerups` from `src/types/index.ts`. -/
structure PlayerPowerups where
  inventory : PowerupInventory
  activePowerup : Option ActivePowerup
deriving DecidableEq, Repr

/-- `SharedPowerupPool` from `src/types/index.ts`. -/
structure SharedPowerupPool where
  inventory : PowerupInventory
deriving DecidableEq, Repr

/-- `PlayerStatus` from `src/types/index.ts`: `'playing' | 'finished'`. -/
inductive PlayerStatus where
  | playing
  | finished
deriving DecidableEq, Repr

/-- `Player` from `src/types/index.ts` (fields the session core touches). -/
structure Player where
  name : String
  status : PlayerStatus
  finalScore : Option Int
  completionPercentage : Int
  powerups : Option PlayerPowerups := none
  currentBoardString : Option String := none
deriving DecidableEq, Repr

/-- Result record of `canUsePowerup`: `{ canUse: boolean; reason?: string }`. -/
structure CanUseResult where
  canUse : Bool
  reason : Option String
deriving DecidableEq, Repr

/-- `canUsePowerup` from `src/services/powerupService.ts`: refuse when an
active powerup is recorded; otherwise refuse when neither the player's
inventory nor the shared pool holds an instance of the requested type. -/
def canUsePowerup (player : Player) (powerupType : PowerupType)
    (sharedPool : Option SharedPowerupPool) : CanUseResult :=
  if (player.powerups.bind (fun pw => pw.activePowerup)).isSome then
    { canUse := false, reason := some "Powerup already active" }
  else
    let inventory := (player.powerups.map (fun pw => pw.inventory)).getD
      createEmptyInventory
    let hasInInventory : Bool := decide (inventory.get powerupType > 0)
    let hasInSharedPool : Bool :=
      decide ((match sharedPool with
               | some sp => sp.inventory.get powerupType
               | none => 0) > 0)
    if !hasInInventory && !hasInSharedPool then
      { canUse := false, reason := some "Powerup not available" }
    else
      { canUse := true, reason := none }

/-- The three store paths touched by `usePowerup` for a given room, player
and powerup type: the player's `activePowerup` field, the shared-pool count
for the type, and the player's inventory count for the type.  A store read
of a missing path (`snapshot.val()` being `null`, coalesced by `|| 0`) is
an `Option` read with `getD 0`. -/
structure PowerupPaths where
  activePowerup : Option ActivePowerup
  sharedCount : Option Int
  inventoryCount : Option Int
deriving DecidableEq, Repr

/-- `usePowerup` from `src/services/powerupService.ts`, as the pure
transformation it performs on the touched store paths: it unconditionally
records `{type, startedAt: now, durationMs}` as the active powerup
(3000 ms for hint, 5000 ms for fog and peep) and writes
`Math.max(0, currentCount - 1)` to the shared-pool count (global mode) or
the player's inventory count (otherwise). -/
def usePowerup (s : PowerupPaths) (powerupType : PowerupType)
    (isGlobalMode : Bool) (now : Int) : PowerupPaths :=
  let durationMs : Int := if powerupType = PowerupType.hint then 3000 else 5000
  let activePowerup : ActivePowerup :=
    { type := powerupType, startedAt := now, durationMs := durationMs }
  if isGlobalMode then
    let currentCount := s.sharedCount.getD 0
    { s with
      activePowerup := some activePowerup,
      sharedCount := some (max 0 (currentCount - 1)) }
  else
    let currentCount := s.inventoryCount.getD 0
    { s with
      activePowerup := some activePowerup,
      inventoryCount := some (max 0 (currentCount - 1)) }

/-- The loop body of `allocateRandomPowerups`: run `fuel` more iterations,
`i` being the current iteration index.  `Math.floor(Math.random() * len)`
is modelled by an oracle giving an arbitrary natural per iteration, taken
modulo the filtered pool's length so it is always a valid index. -/
def allocateRandomLoop (maxPerType : Int) (pool : List PowerupType)
    (oracle : Nat → Nat) :
    Nat → Nat → PowerupInventory → List PowerupType
  | 0, _, _ => []
  | fuel + 1, i, counts =>
      let availablePool := pool.filter (fun t => counts.get t < maxPerType)
      if availablePool.length = 0 then
        []
      else
        let randomIndex := oracle i % availablePool.length
        let selectedType := availablePool.getD randomIndex PowerupType.hint
        selectedType ::
          allocateRandomLoop maxPerType pool oracle fuel (i + 1)
            (counts.incr selectedType)

/-- `allocateRandomPowerups` from `src/services/powerupService.ts`: draw up
to `count` powerups, skipping types that reached `maxPerType`, stopping
early when no type remains eligible. -/
def allocateRandomPowerups (count : Int) (maxPerType : Int)
    (pool : List PowerupType) (oracle : Nat → Nat) : List PowerupType :=
  allocateRandomLoop maxPerType pool oracle count.toNat 0 createEmptyInventory

/-- `PowerupSetupMode` from `src/types/index.ts`. -/
inductive PowerupSetupMode where
  | random
  | fixed
  | random_per_player
  | fixed_per_player
deriving DecidableEq, Repr

/-- `PowerupConfig` from `src/types/index.ts`. -/
structure PowerupConfig where
  enabled : Bool
  mode : PowerupSetupMode
  maxPowerupsPerEntity : Int
  perTypeMax : Int
  fixedList : Option (List PowerupType) := none
  pool : Option (List PowerupType) := none
deriving DecidableEq, Repr

/-- Return record of `allocatePowerups`: the per-player inventories (as an
association list following `playerIds`) and the optional shared pool. -/
structure AllocationResult where
  playerInventories : List (String × PowerupInventory)
  sharedPool : Option SharedPowerupPool
deriving DecidableEq, Repr

/-- The default candidate pool of `allocateRandomPowerups`
(`['hint', 'fog', 'peep']`). -/
def defaultPool : List PowerupType :=
  [PowerupType.hint, PowerupType.fog, PowerupType.peep]

/-- `allocatePowerups` from `src/services/powerupService.ts`.  `oracle p i`
stands for the `i`-th `Math.random` draw of the `p`-th independent draw
sequence: shared modes use sequence 0 once; `random_per_player` uses an
independent sequence per player. -/
def allocatePowerups (config : PowerupConfig) (playerIds : List String)
    (oracle : Nat → Nat → Nat) : AllocationResult :=
  if ¬ config.enabled then
    { playerInventories :=
        playerIds.map (fun playerId => (playerId, createEmptyInventory)),
      sharedPool := none }
  else
    match config.mode with
    | PowerupSetupMode.random =>
        let powerups := allocateRandomPowerups config.maxPowerupsPerEntity
          config.perTypeMax (config.pool.getD defaultPool) (oracle 0)
        { playerInventories :=
            playerIds.map (fun playerId => (playerId, createEmptyInventory)),
          sharedPool := some { inventory := arrayToInventory powerups } }
    | PowerupSetupMode.fixed =>
        let powerups := config.fixedList.getD []
        { playerInventories :=
            playerIds.map (fun playerId => (playerId, createEmptyInventory)),
          sharedPool := some { inventory := arrayToInventory powerups } }
    | PowerupSetupMode.random_per_player =>
        { playerInventories :=
            (playerIds.enum).map (fun p =>
              (p.2, arrayToInventory (allocateRandomPowerups
                config.maxPowerupsPerEntity config.perTypeMax
                (config.pool.getD defaultPool) (oracle p.1)))),
          sharedPool := none }
    | PowerupSetupMode.fixed_per_player =>
        let inventory := arrayToInventory (config.fixedList.getD [])
        { playerInventories :=
            playerIds.map (fun playerId => (playerId, inventory)),
          sharedPool := none }

/-- `Players` from `src/types/index.ts`: a map from player id to player. -/
abbrev Players : Type := String → Option Player

/-- `shouldShowBoard` from `src/services/powerupService.ts`.  `Date.now()`
is passed in as `now`. -/
def shouldShowBoard (viewerId boardOwnerId : String) (players : Players)
    (now : Int) : Bool :=
  if viewerId = boardOwnerId then
    true
  else
    match players viewerId, players boardOwnerId with
    | some viewer, some boardOwner =>
        match viewer.powerups.bind (fun pw => pw.activePowerup) with
        | some viewerPowerup =>
            if viewerPowerup.type = PowerupType.peep then
              let isActive : Bool :=
                decide (now < viewerPowerup.startedAt + viewerPowerup.durationMs)
              if isActive then
                match boardOwner.powerups.bind (fun pw => pw.activePowerup) with
                | some ownerPowerup =>
                    if ownerPowerup.type = PowerupType.fog then
                      let isFogActive : Bool :=
                        decide (now < ownerPowerup.startedAt + ownerPowerup.durationMs)
                      if isFogActive &&
                          decide (ownerPowerup.startedAt < viewerPowerup.startedAt) then
                        false
                      else
                        true
                    else
                      true
                | none => true
              else
                false
            else
              false
        | none => false
    | _, _ => false

/-- `RoomStatus` from `src/types/index.ts`:
`'waiting' | 'playing' | 'finished'`. -/
inductive RoomStatus where
  | waiting
  | playing
  | finished
deriving DecidableEq, Repr

/-- `Room` from `src/types/index.ts`, restricted to the fields read or
written by the room-service operations modelled here (the puzzle
configuration is opaque to those operations and is omitted). -/
structure Room where
  status : RoomStatus
  adminId : String
  winnerId : Option String
  players : Players
  startTime : Option Int
  sharedPowerupPool : Option SharedPowerupPool := none

/-- `updateRoomStatus` from `src/services/roomService.ts` (identical in
both copies of the file in the repository), as the pure transformation of
the room record: write the new status, and when the new status is
`playing` also write `startTime := Date.now()`.  The function takes no
caller identity and consults neither `adminId` nor the player count; it
never throws. -/
def updateRoomStatus (room : Room) (status : RoomStatus) (now : Int) : Room :=
  let room := { room with status := status }
  if status = RoomStatus.playing then
    { room with startTime := some now }
  else
    room

/-- The player-path writes of `submitAnswer`: set
`players/{playerId}/status := 'finished'` and
`players/{playerId}/finalScore := finalScore`.  A multi-path Firebase
update creates the player node when it is absent; the node then holds only
the two written leaves, modelled by defaulting the remaining fields. -/
def setPlayerFinished (players : Players) (playerId : String)
    (finalScore : Int) : Players :=
  fun id =>
    if id = playerId then
      match players id with
      | some p =>
          some { p with status := PlayerStatus.finished,
                        finalScore := some finalScore }
      | none =>
          some { name := "", status := PlayerStatus.finished,
                 finalScore := some finalScore, completionPercentage := 0 }
    else
      players id

/-- `submitAnswer` from `src/services/roomService.ts`, as the pure
transformation of the room record: when `isWinner` is true it writes
`winnerId := playerId` and `status := 'finished'` in the same multi-path
update; in every case it marks the submitting player finished with the
given final score.  No check of the current status or of an existing
winner is performed. -/
def submitAnswer (room : Room) (playerId : String) (isWinner : Bool)
    (finalScore : Int) : Room :=
  let room :=
    if isWinner then
      { room with winnerId := some playerId, status := RoomStatus.finished }
    else
      room
  { room with players := setPlayerFinished room.players playerId finalScore }

/-- `SudokuMove` (`src/games/sudoku/SudokuMove.ts`): row, column and value
of a proposed cell edit. -/
structure SudokuMove where
  row : Int
  col : Int
  value : Int
deriving DecidableEq, Repr

/-- A Sudoku state serializes to an 81-character board string
(`SudokuState.serialize`); the embedding represents the state by that
string, as a list of characters ('0' marks an empty cell). -/
abbrev SudokuBoard : Type := List Char

/-- `SudokuGame.validateMove` from `src/games/sudoku` (the `SudokuGame`
class): bounds checks only — rows 0–8, columns 0–8, values 0–9.  The
state argument is ignored by the source (`_state`), and no clue-cell or
Sudoku-rule check is performed. -/
def SudokuGame.validateMove (_state : SudokuBoard) (move : SudokuMove) : Bool :=
  if move.row < 0 ∨ move.row > 8 then false
  else if move.col < 0 ∨ move.col > 8 then false
  else if move.value < 0 ∨ move.value > 9 then false
  else true

/-- `isSudokuCellEditable` from `src/games/sudoku/utils/sudokuLogic.ts`:
a cell is editable iff it was empty ('0') in the original puzzle string.
(Indexing a string out of range yields `undefined` in JS, which is not
'0'; modelled by `getD` with a non-'0' default.) -/
def isSudokuCellEditable (puzzleString : SudokuBoard) (row col : Int) : Bool :=
  let index := row * 9 + col
  (List.getD puzzleString index.toNat 'X') = '0' ∧ 0 ≤ index

/-- `CrosswordState` (`src/games/crossword/CrosswordState.ts`): the grid
of cell strings and its size (the clue lists are never consulted by the
operations modelled here and are omitted). -/
structure CrosswordState where
  grid : List (List String)
  size : Int
deriving DecidableEq, Repr

/-- `CrosswordState.getCell`: empty string when out of bounds, otherwise
`grid[row][col]`. -/
def CrosswordState.getCell (s : CrosswordState) (row col : Int) : String :=
  if row < 0 ∨ row ≥ s.size ∨ col < 0 ∨ col ≥ s.size then
    ""
  else
    List.getD (List.getD s.grid row.toNat []) col.toNat ""

/-- `CrosswordState.isBlackCell`: the cell holds `'#'`. -/
def CrosswordState.isBlackCell (s : CrosswordState) (row col : Int) : Bool :=
  s.getCell row col = "#"

/-- The value of a `CrosswordMove` is `string | number` in the source. -/
inductive CrosswordValue where
  | str (s : String)
  | num (n : Int)
deriving DecidableEq, Repr

/-- `CrosswordMove` (`src/games/crossword/CrosswordMove.ts`). -/
structure CrosswordMove where
  row : Int
  col : Int
  value : CrosswordValue
deriving DecidableEq, Repr

/-- `/^[A-Z]$/.test(s)`: exactly one character, an uppercase ASCII
letter. -/
def isSingleUppercaseLetter (s : String) : Bool :=
  match s.toList with
  | [c] => decide ('A' ≤ c ∧ c ≤ 'Z')
  | _ => false

/-- `CrosswordGame.validateMove` from
`src/games/crossword/CrosswordGame.ts`: bounds check against the grid
size, rejection of black (non-editable) cells, and a value check — a
string value must be empty or a single letter A–Z after uppercasing, a
numeric value must be 0 (clear). -/
def CrosswordGame.validateMove (state : CrosswordState)
    (move : CrosswordMove) : Bool :=
  if move.row < 0 ∨ move.row ≥ state.size ∨
      move.col < 0 ∨ move.col ≥ state.size then
    false
  else if state.isBlackCell move.row move.col then
    false
  else
    match move.value with
    | CrosswordValue.str s =>
        let val := s.toUpper
        if val ≠ "" ∧ ¬ isSingleUppercaseLetter val then false
        else true
    | CrosswordValue.num n =>
        if n ≠ 0 then false
        else true

/-- The single `for` loop of `getSudokuCompletionPercentage`, walking the
puzzle, current-board and solution strings in step: returns
`(correctlyFilled, totalEmpty)` — the number of originally-empty cells
whose current value equals the solution, and the number of
originally-empty cells. -/
def sudokuCompletionLoop : List Char → List Char → List Char → Nat × Nat
  | p :: ps, c :: cs, s :: ss =>
      let rest := sudokuCompletionLoop ps cs ss
      if p = '0' then
        (if c = s then rest.1 + 1 else rest.1, rest.2 + 1)
      else
        rest
  | _, _, _ => (0, 0)

/-- `getSudokuCompletionPercentage` from
`src/games/sudoku/utils/sudokuLogic.ts`: 0 unless all three strings have
length 81; 100 when the puzzle has no empty cell; otherwise
`Math.round(correctlyFilled / totalEmpty * 100)`, i.e.
`⌊100·c/e + 1/2⌋ = (200·c + e) / (2·e)` in exact arithmetic. -/
def getSudokuCompletionPercentage
    (currentBoard puzzleString solutionString : List Char) : Nat :=
  if currentBoard.length ≠ 81 ∨ puzzleString.length ≠ 81 ∨
      solutionString.length ≠ 81 then
    0
  else
    let counts := sudokuCompletionLoop puzzleString currentBoard solutionString
    let correctlyFilled := counts.1
    let totalEmpty := counts.2
    if totalEmpty = 0 then 100
    else (200 * correctlyFilled + totalEmpty) / (2 * totalEmpty)

/-! ## Theorems -/

/-- C9: with maximum total N = 3 and maximum per type M = 2,
`validatePowerupSelection` accepts [hint, hint, fog], rejects
[hint, hint, hint] (per-type limit), and rejects [hint, hint, fog, fog]
(total limit). -/
theorem validatePowerupSelection_n3_m2_examples :
    (validatePowerupSelection
      [PowerupType.hint, PowerupType.hint, PowerupType.fog] 3 2).valid = true ∧
    (validatePowerupSelection
      [PowerupType.hint, PowerupType.hint, PowerupType.hint] 3 2).valid = false ∧
    (validatePowerupSelection
      [PowerupType.hint, PowerupType.hint, PowerupType.fog, PowerupType.fog]
      3 2).valid = false := by
  decide

/-- C10: `usePowerup` is unconditional: for every reachable store value —
including a zero or missing count and an already-recorded active powerup —
it records an active powerup `{type, startedAt := now, durationMs}`
(3000 ms for hint, 5000 ms otherwise) and writes `max 0 (current − 1)` to
the count path selected by `isGlobalMode`, leaving the other count path
untouched; it performs no availability or active-ability check and has no
unavailability outcome. -/
theorem usePowerup_unconditional (s : PowerupPaths) (t : PowerupType)
    (g : Bool) (now : Int) :
    (usePowerup s t g now).activePowerup =
      some { type := t, startedAt := now,
             durationMs := if t = PowerupType.hint then 3000 else 5000 } ∧
    (usePowerup s t g now).sharedCount =
      (if g then some (max 0 (s.sharedCount.getD 0 - 1)) else s.sharedCount) ∧
    (usePowerup s t g now).inventoryCount =
      (if g then s.inventoryCount
       else some (max 0 (s.inventoryCount.getD 0 - 1))) := by
  cases g <;> simp [usePowerup]

/-- C5: `canUsePowerup` permits activation exactly when no active powerup
is recorded and the requested type is available in the player's inventory
or the shared pool; every refusal carries a reason.  (The function is
pure: it returns a verdict record and writes nothing.) -/
theorem canUsePowerup_permits_iff (player : Player) (t : PowerupType)
    (sharedPool : Option SharedPowerupPool) :
    ((canUsePowerup player t sharedPool).canUse = true ↔
      (player.powerups.bind (fun pw => pw.activePowerup)) = none ∧
        (0 < ((player.powerups.map (fun pw => pw.inventory)).getD
            createEmptyInventory).get t ∨
         0 < (match sharedPool with
              | some sp => sp.inventory.get t
              | none => 0))) ∧
    (canUsePowerup player t sharedPool).reason.isSome =
      !(canUsePowerup player t sharedPool).canUse := by
  unfold canUsePowerup
  rcases h : player.powerups.bind (fun pw => pw.activePowerup) with _ | ap
  · by_cases h1 : 0 < ((player.powerups.map (fun pw => pw.inventory)).getD
        createEmptyInventory).get t <;>
      by_cases h2 : 0 < (match sharedPool with
                         | some sp => sp.inventory.get t
                         | none => 0) <;>
      simp [h, h1, h2]
  · simp [h]

/-- C1: `updateRoomStatus` performs the requested transition for every
room: it writes the new status unconditionally and, when the new status is
`playing`, records the start timestamp.  The function takes no caller
identity and reads neither `adminId` nor the player count, so a
waiting→playing call made on behalf of a non-admin, or on a room with a
single joined player, performs the transition all the same and signals no
error — contradicting `test-admin-auth.ts`, which expects an
"Only the room admin" rejection for a non-admin caller. -/
theorem updateRoomStatus_unconditional (room : Room) (status : RoomStatus)
    (now : Int) :
    (updateRoomStatus room status now).status = status ∧
    (updateRoomStatus room status now).startTime =
      (if status = RoomStatus.playing then some now else room.startTime) ∧
    (updateRoomStatus room status now).adminId = room.adminId ∧
    (updateRoomStatus room status now).players = room.players := by
  cases status <;> simp [updateRoomStatus]

/-- A two-player map for the `submitAnswer` counterexample: "A" has
already won and is finished, "B" is still playing. -/
def winnerRecordedPlayers : Players := fun id =>
  if id = "A" then
    some { name := "Alice", status := PlayerStatus.finished,
           finalScore := some 100, completionPercentage := 100 }
  else if id = "B" then
    some { name := "Bob", status := PlayerStatus.playing,
           finalScore := none, completionPercentage := 90 }
  else none

/-- A finished room whose winner "A" is already recorded. -/
def winnerRecordedRoom : Room :=
  { status := RoomStatus.finished, adminId := "A", winnerId := some "A",
    players := winnerRecordedPlayers, startTime := some 0 }

/-- C6 counterexample: on a room that is already `finished` with winner
"A" recorded, a winning `submitAnswer` by "B" overwrites the recorded
winner — the claim says the recorded winner is never overwritten. -/
theorem submitAnswer_overwrites_recorded_winner :
    winnerRecordedRoom.status = RoomStatus.finished ∧
    winnerRecordedRoom.winnerId = some "A" ∧
    (submitAnswer winnerRecordedRoom "B" true 95).winnerId = some "B" := by
  exact ⟨rfl, rfl, rfl⟩

/-- C6 (amended): a winning `submitAnswer` writes `winnerId := playerId`
and `status := finished` in the same multi-path update, unconditionally —
it checks neither the current status nor an existing winner, so a winning
submission issued after the session is finished or a winner is recorded
overwrites the winner; at-most-once and only-while-playing hold only
insofar as callers guard the call.  A non-winning submission leaves
`winnerId` and `status` unchanged. -/
theorem submitAnswer_winner_write_spec (room : Room) (playerId : String)
    (finalScore : Int) :
    (submitAnswer room playerId true finalScore).winnerId = some playerId ∧
    (submitAnswer room playerId true finalScore).status = RoomStatus.finished ∧
    (submitAnswer room playerId false finalScore).winnerId = room.winnerId ∧
    (submitAnswer room playerId false finalScore).status = room.status := by
  simp [submitAnswer]

/-- A player whose only powerup state is the given active powerup. -/
def playerWithActive (name : String) (t : PowerupType)
    (startedAt durationMs : Int) : Player :=
  { name := name, status := PlayerStatus.playing, finalScore := none,
    completionPercentage := 0,
    powerups := some { inventory := createEmptyInventory,
                       activePowerup := some { type := t,
                                               startedAt := startedAt,
                                               durationMs := durationMs } } }

/-- A room population of viewer "V" and board owner "O". -/
def viewerOwnerPlayers (v o : Player) : Players := fun id =>
  if id = "V" then some v else if id = "O" then some o else none

/-- C3 counterexample: viewer "V" has peep active from t = 10 for 5000 ms
and owner "O" has fog active from the same instant t = 10 for 5000 ms;
at t = 12 both windows are open and the activation timestamps are
identical, yet `shouldShowBoard` returns `true` — the fog-precedence test
`ownerPowerup.startedAt < viewerPowerup.startedAt` is strict, so the tie
resolves in favor of the revealing effect, not the obscuring one as the
claim states. -/
theorem shouldShowBoard_tie_shows_board :
    shouldShowBoard "V" "O"
      (viewerOwnerPlayers (playerWithActive "Viewer" PowerupType.peep 10 5000)
        (playerWithActive "Owner" PowerupType.fog 10 5000)) 12 = true := by
  decide

/-- C3 (amended): when viewer and owner abilities tie on the activation
timestamp (both windows covering `now`, viewer peep, owner fog), the
strict comparison in `shouldShowBoard` does not let the fog take
precedence: the board is shown — ties resolve in favor of the revealing
effect. -/
theorem shouldShowBoard_tie_resolves_to_reveal
    (players : Players) (viewerId boardOwnerId : String) (now : Int)
    (viewer boardOwner : Player) (vp op : ActivePowerup)
    (hne : viewerId ≠ boardOwnerId)
    (hv : players viewerId = some viewer)
    (ho : players boardOwnerId = some boardOwner)
    (hvp : viewer.powerups.bind (fun pw => pw.activePowerup) = some vp)
    (hop : boardOwner.powerups.bind (fun pw => pw.activePowerup) = some op)
    (hvt : vp.type = PowerupType.peep)
    (hot : op.type = PowerupType.fog)
    (hvactive : now < vp.startedAt + vp.durationMs)
    (hoactive : now < op.startedAt + op.durationMs)
    (htie : op.startedAt = vp.startedAt) :
    shouldShowBoard viewerId boardOwnerId players now = true := by
  unfold shouldShowBoard
  simp [hne, hv, ho, hvp, hop, hvt, hot, hvactive, hoactive, htie]

/-- Witness for the amended C3 theorem at the spec's concrete numbers. -/
theorem shouldShowBoard_tie_resolves_to_reveal_witness :
    shouldShowBoard "V" "O"
      (viewerOwnerPlayers (playerWithActive "Viewer" PowerupType.peep 10 5000)
        (playerWithActive "Owner" PowerupType.fog 10 5000)) 12 = true := by
  exact shouldShowBoard_tie_resolves_to_reveal _ "V" "O" 12
    (playerWithActive "Viewer" PowerupType.peep 10 5000)
    (playerWithActive "Owner" PowerupType.fog 10 5000)
    { type := PowerupType.peep, startedAt := 10, durationMs := 5000 }
    { type := PowerupType.fog, startedAt := 10, durationMs := 5000 }
    (by decide) rfl rfl rfl rfl rfl rfl (by decide) (by decide) rfl

/-- C4: with viewer peep and owner fog both covering `now` (distinct
viewer and owner, both present), `shouldShowBoard` returns `false` when
the fog was activated strictly before the peep and `true` when the fog
was activated strictly after the peep. -/
theorem shouldShowBoard_fog_precedence
    (players : Players) (viewerId boardOwnerId : String) (now : Int)
    (viewer boardOwner : Player) (vp op : ActivePowerup)
    (hne : viewerId ≠ boardOwnerId)
    (hv : players viewerId = some viewer)
    (ho : players boardOwnerId = some boardOwner)
    (hvp : viewer.powerups.bind (fun pw => pw.activePowerup) = some vp)
    (hop : boardOwner.powerups.bind (fun pw => pw.activePowerup) = some op)
    (hvt : vp.type = PowerupType.peep)
    (hot : op.type = PowerupType.fog)
    (hvactive : now < vp.startedAt + vp.durationMs)
    (hoactive : now < op.startedAt + op.durationMs) :
    (op.startedAt < vp.startedAt →
      shouldShowBoard viewerId boardOwnerId players now = false) ∧
    (vp.startedAt < op.startedAt →
      shouldShowBoard viewerId boardOwnerId players now = true) := by
  constructor
  · intro hlt
    unfold shouldShowBoard
    simp [hne, hv, ho, hvp, hop, hvt, hot, hvactive, hoactive, hlt]
  · intro hlt
    have hnlt : ¬ op.startedAt < vp.startedAt := by omega
    unfold shouldShowBoard
    simp [hne, hv, ho, hvp, hop, hvt, hot, hvactive, hoactive, hnlt]

/-- Witness for C4 at the spec's concrete numbers: peep from t = 10 for
5000 ms; a fog from t = 8 hides the board at t = 12, a fog from t = 11
does not. -/
theorem shouldShowBoard_fog_precedence_witness :
    shouldShowBoard "V" "O"
      (viewerOwnerPlayers (playerWithActive "Viewer" PowerupType.peep 10 5000)
        (playerWithActive "Owner" PowerupType.fog 8 5000)) 12 = false ∧
    shouldShowBoard "V" "O"
      (viewerOwnerPlayers (playerWithActive "Viewer" PowerupType.peep 10 5000)
        (playerWithActive "Owner" PowerupType.fog 11 5000)) 12 = true := by
  constructor
  · exact (shouldShowBoard_fog_precedence _ "V" "O" 12
      (playerWithActive "Viewer" PowerupType.peep 10 5000)
      (playerWithActive "Owner" PowerupType.fog 8 5000)
      { type := PowerupType.peep, startedAt := 10, durationMs := 5000 }
      { type := PowerupType.fog, startedAt := 8, durationMs := 5000 }
      (by decide) rfl rfl rfl rfl rfl rfl (by decide) (by decide)).1 (by decide)
  · exact (shouldShowBoard_fog_precedence _ "V" "O" 12
      (playerWithActive "Viewer" PowerupType.peep 10 5000)
      (playerWithActive "Owner" PowerupType.fog 11 5000)
      { type := PowerupType.peep, startedAt := 10, durationMs := 5000 }
      { type := PowerupType.fog, startedAt := 11, durationMs := 5000 }
      (by decide) rfl rfl rfl rfl rfl rfl (by decide) (by decide)).2 (by decide)

/-- All three counts of an inventory record are non-negative. -/
def PowerupInventory.Nonneg (inv : PowerupInventory) : Prop :=
  0 ≤ inv.hint ∧ 0 ≤ inv.fog ∧ 0 ≤ inv.peep

theorem createEmptyInventory_nonneg : createEmptyInventory.Nonneg := by
  refine ⟨le_refl 0, le_refl 0, le_refl 0⟩

theorem incr_nonneg (inv : PowerupInventory) (t : PowerupType)
    (h : inv.Nonneg) : (inv.incr t).Nonneg := by
  obtain ⟨h1, h2, h3⟩ := h
  cases t <;> exact ⟨by simp [PowerupInventory.incr]; omega,
    by simp [PowerupInventory.incr]; omega,
    by simp [PowerupInventory.incr]; omega⟩

theorem foldl_incr_nonneg (l : List PowerupType) (inv : PowerupInventory)
    (h : inv.Nonneg) :
    (l.foldl (fun inv t => inv.incr t) inv).Nonneg := by
  induction l generalizing inv with
  | nil => exact h
  | cons t rest ih => exact ih _ (incr_nonneg inv t h)

theorem arrayToInventory_nonneg (l : List PowerupType) :
    (arrayToInventory l).Nonneg :=
  foldl_incr_nonneg l createEmptyInventory createEmptyInventory_nonneg

theorem mem_allocatePowerups_nonneg (config : PowerupConfig)
    (playerIds : List String) (oracle : Nat → Nat → Nat)
    (pr : String × PowerupInventory)
    (hpr : pr ∈ (allocatePowerups config playerIds oracle).playerInventories) :
    pr.2.Nonneg := by
  unfold allocatePowerups at hpr
  split at hpr
  · simp only [List.mem_map] at hpr
    obtain ⟨pid, _, rfl⟩ := hpr
    exact createEmptyInventory_nonneg
  · split at hpr
    · simp only [List.mem_map] at hpr
      obtain ⟨pid, _, rfl⟩ := hpr
      exact createEmptyInventory_nonneg
    · simp only [List.mem_map] at hpr
      obtain ⟨pid, _, rfl⟩ := hpr
      exact createEmptyInventory_nonneg
    · simp only [List.mem_map] at hpr
      obtain ⟨p, _, rfl⟩ := hpr
      exact arrayToInventory_nonneg _
    · simp only [List.mem_map] at hpr
      obtain ⟨pid, _, rfl⟩ := hpr
      exact arrayToInventory_nonneg _

/-- C7: every count the powerup subsystem writes to the store is
non-negative — every inventory produced by `allocatePowerups` (per player
and in the shared pool) has non-negative counts in every mode, and
`usePowerup` writes `max 0 (current − 1)` to the count path it decrements,
which is never negative. -/
theorem powerup_counts_never_negative (config : PowerupConfig)
    (playerIds : List String) (oracle : Nat → Nat → Nat)
    (s : PowerupPaths) (t : PowerupType) (g : Bool) (now : Int) :
    ((allocatePowerups config playerIds oracle).playerInventories.Forall
      (fun pr => pr.2.Nonneg)) ∧
    (match (allocatePowerups config playerIds oracle).sharedPool with
     | some sp => sp.inventory.Nonneg
     | none => True) ∧
    ((usePowerup s t g now).sharedCount =
      (if g then some (max 0 (s.sharedCount.getD 0 - 1)) else s.sharedCount)) ∧
    ((usePowerup s t g now).inventoryCount =
      (if g then s.inventoryCount
       else some (max 0 (s.inventoryCount.getD 0 - 1)))) ∧
    (0 ≤ max 0 (s.sharedCount.getD 0 - 1) ∧
     0 ≤ max 0 (s.inventoryCount.getD 0 - 1)) := by
  refine ⟨?_, ?_, ?_, ?_, le_max_left 0 _, le_max_left 0 _⟩
  · rw [List.forall_iff_forall_mem]
    exact fun pr hpr => mem_allocatePowerups_nonneg config playerIds oracle pr hpr
  · rcases config with ⟨enabled, mode, maxE, perT, fixedList, pool⟩
    cases enabled
    · simp [allocatePowerups]
    · cases mode <;> simp [allocatePowerups, arrayToInventory_nonneg]
  · cases g <;> simp [usePowerup]
  · cases g <;> simp [usePowerup]

/-- An initial Sudoku board whose cell (0,0) is a pre-filled clue ('5')
and whose 80 remaining cells are empty. -/
def cluePuzzle : SudokuBoard := '5' :: List.replicate 80 '0'

/-- C2 counterexample: cell (0,0) of `cluePuzzle` is pre-filled (not
editable), yet `SudokuGame.validateMove` accepts a move writing 3 there —
the Sudoku plugin's validator checks only bounds and never consults the
initial state, so it does not reject edits to clue cells as the claim
requires of every plugin. -/
theorem sudoku_validateMove_accepts_clue_cell :
    isSudokuCellEditable cluePuzzle 0 0 = false ∧
    SudokuGame.validateMove cluePuzzle
      { row := 0, col := 0, value := 3 } = true := by
  decide

/-- C2 (amended): the Crossword plugin's `validateMove` rejects every move
targeting a non-editable (black) cell, but the Sudoku plugin's
`validateMove` accepts exactly the in-bounds moves (row and column 0–8,
value 0–9) regardless of the current state and of which cells are
pre-filled clues; clue-cell protection for Sudoku is enforced outside the
plugin validator (the UI's `isEditable` check against the initial state). -/
theorem validateMove_clue_cells_per_plugin
    (cstate : CrosswordState) (cmove : CrosswordMove)
    (sstate : SudokuBoard) (smove : SudokuMove)
    (hblack : cstate.isBlackCell cmove.row cmove.col = true) :
    CrosswordGame.validateMove cstate cmove = false ∧
    (SudokuGame.validateMove sstate smove = true ↔
      (0 ≤ smove.row ∧ smove.row ≤ 8 ∧ 0 ≤ smove.col ∧ smove.col ≤ 8 ∧
       0 ≤ smove.value ∧ smove.value ≤ 9)) := by
  constructor
  · unfold CrosswordGame.validateMove
    split
    · rfl
    · simp [hblack]
  · unfold SudokuGame.validateMove
    split
    · simp; omega
    · split
      · simp; omega
      · split
        · simp; omega
        · simp; omega

/-- A 2×2 crossword state whose (0,0) cell is black. -/
def blackCornerState : CrosswordState :=
  { grid := [["#", ""], ["", ""]], size := 2 }

/-- Witness for the amended C2 theorem: the black cell (0,0) of
`blackCornerState` is rejected by the Crossword validator, while the
Sudoku validator accepts the in-bounds move (0,0,3) on `cluePuzzle` even
though (0,0) is a clue. -/
theorem validateMove_clue_cells_per_plugin_witness :
    CrosswordGame.validateMove blackCornerState
      { row := 0, col := 0, value := CrosswordValue.str "A" } = false ∧
    (SudokuGame.validateMove cluePuzzle
      { row := 0, col := 0, value := 3 } = true ↔
      ((0 : Int) ≤ 0 ∧ (0 : Int) ≤ 8 ∧ (0 : Int) ≤ 0 ∧ (0 : Int) ≤ 8 ∧
       (0 : Int) ≤ 3 ∧ (3 : Int) ≤ 9)) := by
  exact validateMove_clue_cells_per_plugin blackCornerState
    { row := 0, col := 0, value := CrosswordValue.str "A" }
    cluePuzzle { row := 0, col := 0, value := 3 } (by decide)

theorem sudokuCompletionLoop_self (p s : List Char) (hs : '0' ∉ s) :
    (sudokuCompletionLoop p p s).1 = 0 := by
  induction p generalizing s with
  | nil => rfl
  | cons a ps ih =>
      cases s with
      | nil => rfl
      | cons b ss =>
          have hb : ('0' : Char) ≠ b := fun h =>
            hs (h ▸ List.mem_cons_self b ss)
          have hss : '0' ∉ ss := fun h => hs (List.mem_cons_of_mem b h)
          by_cases ha : a = '0'
          · subst ha
            simp [sudokuCompletionLoop, hb, ih ss hss]
          · simp [sudokuCompletionLoop, ha, ih ss hss]

theorem sudokuCompletionLoop_solution (p s : List Char) :
    (sudokuCompletionLoop p s s).1 = (sudokuCompletionLoop p s s).2 := by
  induction p generalizing s with
  | nil => rfl
  | cons a ps ih =>
      cases s with
      | nil => rfl
      | cons b ss =>
          by_cases ha : a = '0' <;> simp [sudokuCompletionLoop, ha, ih ss]

theorem sudokuCompletionLoop_snd_congr (p s b1 b2 : List Char)
    (h : b1.length = b2.length) :
    (sudokuCompletionLoop p b1 s).2 = (sudokuCompletionLoop p b2 s).2 := by
  induction p generalizing s b1 b2 with
  | nil => rfl
  | cons a ps ih =>
      cases b1 with
      | nil =>
          cases b2 with
          | nil => rfl
          | cons c cs => simp at h
      | cons c1 cs1 =>
          cases b2 with
          | nil => simp at h
          | cons c2 cs2 =>
              cases s with
              | nil => rfl
              | cons b ss =>
                  simp only [List.length_cons, Nat.add_right_cancel_iff] at h
                  by_cases ha : a = '0' <;>
                    simp [sudokuCompletionLoop, ha, ih ss cs1 cs2 h]

theorem sudokuCompletionLoop_snd_pos (p c s : List Char)
    (hp : '0' ∈ p) (hc : p.length ≤ c.length) (hs : p.length ≤ s.length) :
    0 < (sudokuCompletionLoop p c s).2 := by
  induction p generalizing c s with
  | nil => simp at hp
  | cons a ps ih =>
      cases c with
      | nil => simp at hc
      | cons cc cs =>
          cases s with
          | nil => simp at hs
          | cons b ss =>
              simp only [List.length_cons, Nat.add_le_add_iff_right] at hc hs
              by_cases ha : a = '0'
              · simp [sudokuCompletionLoop, ha]
              · rcases List.mem_cons.mp hp with h0 | h0
                · exact absurd h0.symm ha
                · simpa [sudokuCompletionLoop, ha] using ih cs ss h0 hc hs

/-- C8: for every well-formed Sudoku instance (81-character strings, at
least one empty cell in the puzzle, no empty cell in the solution) the
completion percentage is 0 at the initial state, 100 at the solution, and
monotonically non-decreasing in the number of originally-empty cells whose
current value matches the solution. -/
theorem getSudokuCompletionPercentage_spec
    (puzzle solution b1 b2 : List Char)
    (hp : puzzle.length = 81) (hs : solution.length = 81)
    (h1 : b1.length = 81) (h2 : b2.length = 81)
    (hempty : '0' ∈ puzzle) (hsol : '0' ∉ solution) :
    getSudokuCompletionPercentage puzzle puzzle solution = 0 ∧
    getSudokuCompletionPercentage solution puzzle solution = 100 ∧
    ((sudokuCompletionLoop puzzle b1 solution).1 ≤
        (sudokuCompletionLoop puzzle b2 solution).1 →
      getSudokuCompletionPercentage b1 puzzle solution ≤
        getSudokuCompletionPercentage b2 puzzle solution) := by
  have hepos : 0 < (sudokuCompletionLoop puzzle puzzle solution).2 :=
    sudokuCompletionLoop_snd_pos puzzle puzzle solution hempty
      (le_refl _) (by omega)
  refine ⟨?_, ?_, ?_⟩
  · have hz := sudokuCompletionLoop_self puzzle solution hsol
    simp only [getSudokuCompletionPercentage]
    rw [if_neg (by omega)]
    simp only [hz]
    rw [if_neg (by omega)]
    exact Nat.div_eq_of_lt (by omega)
  · have hz := sudokuCompletionLoop_solution puzzle solution
    simp only [getSudokuCompletionPercentage]
    rw [if_neg (by omega)]
    simp only [hz]
    by_cases he : (sudokuCompletionLoop puzzle solution solution).2 = 0
    · rw [if_pos he]
    · rw [if_neg he]
      have hpos := Nat.pos_of_ne_zero he
      exact Nat.div_eq_of_lt_le (by omega) (by omega)
  · intro hmono
    have hsnd : (sudokuCompletionLoop puzzle b1 solution).2 =
        (sudokuCompletionLoop puzzle b2 solution).2 :=
      sudokuCompletionLoop_snd_congr puzzle solution b1 b2 (by omega)
    simp only [getSudokuCompletionPercentage]
    rw [if_neg (show ¬(b1.length ≠ 81 ∨ puzzle.length ≠ 81 ∨
      solution.length ≠ 81) by omega)]
    rw [if_neg (show ¬(b2.length ≠ 81 ∨ puzzle.length ≠ 81 ∨
      solution.length ≠ 81) by omega)]
    simp only [hsnd]
    by_cases he : (sudokuCompletionLoop puzzle b2 solution).2 = 0
    · rw [if_pos he, if_pos he]
    · rw [if_neg he, if_neg he]
      exact Nat.div_le_div_right (by omega)

/-- An 81-cell puzzle that is entirely empty. -/
def emptyPuzzle81 : List Char := List.replicate 81 '0'

/-- An 81-cell solved board (all cells '1'). -/
def solvedBoard81 : List Char := List.replicate 81 '1'

/-- Witness for C8 on a concrete instance: score 0 at the initial state,
100 at the solution, and the monotonicity step from the initial state to
the solution. -/
theorem getSudokuCompletionPercentage_spec_witness :
    getSudokuCompletionPercentage emptyPuzzle81 emptyPuzzle81 solvedBoard81 = 0 ∧
    getSudokuCompletionPercentage solvedBoard81 emptyPuzzle81 solvedBoard81 = 100 ∧
    getSudokuCompletionPercentage emptyPuzzle81 emptyPuzzle81 solvedBoard81 ≤
      getSudokuCompletionPercentage solvedBoard81 emptyPuzzle81 solvedBoard81 := by
  have h := getSudokuCompletionPercentage_spec emptyPuzzle81 solvedBoard81
    emptyPuzzle81 solvedBoard81 (by decide) (by decide) (by decide) (by decide)
    (by decide) (by decide)
  exact ⟨h.1, h.2.1, h.2.2 (by decide)⟩

end OfficeGames
